import Mathlib

/-!
Shallow embedding of the control logic of `src/MP3Mat/MP3Mat.ino`
(Lilypad MP3 player sketch).

The external collaborators (SD card, MP3 decoder chip, pin sampling,
`millis()`) are modelled as inputs to each step function: the decoded
selector readings, the digital switch levels, the result codes returned
by `MP3player.playMP3`, the directory listing, and the rate-limit /
elapsed-time tests appear as parameters.  The sketch's global variables
become fields of `State`.  Machine bytes stay within 0..255 on every
path relevant here, so they are modelled as `Nat` (with comments where
C integer promotion matters).
-/

set_option maxRecDepth 100000

namespace MP3Mat

/-- `MAX_NUM_FILES` from the source: capacity of the `filename` array. -/
def MAX_NUM_FILES : Nat := 20

/-- `SLEEP_DELAY` from the source (ms). -/
def SLEEP_DELAY : Nat := 20000

/-- `BUTTONDELAY` from the source (ms). -/
def BUTTONDELAY : Nat := 1000

/-- A C character string (8.3 filename buffer contents, NUL excluded). -/
abbrev CString := List Char

/-- The populated-slot test written `filename[...] != ""` in the source
(`playNextTrack` line 416, `playPreviousTrack` line 426).  In C this
compares the decayed array pointer against the address of the string
literal `""`; both are valid distinct addresses, so the comparison is
true no matter what the buffer holds. -/
def cstrNeqEmptyLiteral (_s : CString) : Bool := true

/-- The guard written `!dirname[buttNum - 1]` in the source (line 263).
In C the array decays to a non-null pointer, so its logical negation is
false no matter what the buffer holds. -/
def cstrArrayIsNull (_s : CString) : Bool := false

/-- A slot is actually populated when its buffer is non-empty.  This is
the check the spec describes (an explicit populated/empty marker); the
source's pointer comparisons above are compared against it. -/
def slotPopulated (s : CString) : Bool := !s.isEmpty

/-- Number of populated slots in a file list. -/
def countPopulated (l : List CString) : Nat :=
  (l.filter (fun f => slotPopulated f)).length

/-- The sketch's global mutable state.  `playing` models the external
`MP3player.isPlaying()` observation: `stopTrack` clears it and a
successful `playMP3` sets it.  Defaults are the globals' initial
values. -/
structure State where
  last_dir : Nat := 0
  last_file : Nat := 0
  dirname : List CString := List.replicate 5 []
  filename : List CString := List.replicate MAX_NUM_FILES []
  playing : Bool := false
  volume : Nat := 50
  target_vol : Nat := 50
  target_vol_range : Nat := 255
  nextTrackSwitchOn : Bool := false
  previousTrackSwitchOn : Bool := false
deriving Repr, DecidableEq

/-- `stopPlayback()` / `MP3player.stopTrack()`. -/
def stopPlayback (s : State) : State := { s with playing := false }

/-- `playMp3File(fileNum)`.  `res` is the result code returned by the
external `MP3player.playMP3(filename[fileNum - 1])` call (0 = success).
On success the sketch records the playing file and the chip starts
playing; otherwise nothing is written. -/
def playMp3File (res : Nat) (fileNum : Nat) (s : State) : State :=
  if res = 0 then { s with last_file := fileNum, playing := true } else s

/-- `playNextTrack()`.  The guard is
`(last_file + 1) <= MAX_NUM_FILES && filename[last_file] != ""`;
the second conjunct is the constant-true pointer comparison
`cstrNeqEmptyLiteral` applied to the accessed slot. -/
def playNextTrack (res : Nat) (s : State) : State :=
  if s.last_file + 1 ≤ MAX_NUM_FILES ∧
      cstrNeqEmptyLiteral (s.filename.getD s.last_file []) = true then
    let s1 := stopPlayback s
    let s2 := { s1 with last_file := s1.last_file + 1 }
    playMp3File res s2.last_file s2
  else s

/-- The signed index at which `playPreviousTrack`'s populated-slot check
reads the `filename` array: `filename[last_file - 2]` with `last_file`
a byte promoted to `int`. -/
def prevCheckIndex (last_file : Nat) : Int := (last_file : Int) - 2

/-- An index is in bounds for the `filename` array when it lies in
`0 .. MAX_NUM_FILES - 1`. -/
def filenameIndexInBounds (i : Int) : Prop :=
  0 ≤ i ∧ i < (MAX_NUM_FILES : Int)

instance (i : Int) : Decidable (filenameIndexInBounds i) := by
  unfold filenameIndexInBounds; infer_instance

/-- `playPreviousTrack()`.  The guard is
`(last_file - 1) >= 0 && filename[last_file - 2] != ""`: the byte
`last_file` is promoted to `int`, so the first conjunct is `1 ≤
last_file` (no wrap-around), and the second conjunct is the
constant-true pointer comparison applied to the slot at signed index
`prevCheckIndex last_file` (out of the array's bounds when that index
is negative; the total `getD` lookup stands in for the content, which
the comparison ignores). -/
def playPreviousTrack (res : Nat) (s : State) : State :=
  if 1 ≤ s.last_file ∧
      cstrNeqEmptyLiteral
        (s.filename.getD (prevCheckIndex s.last_file).toNat []) = true then
    let s1 := stopPlayback s
    let s2 := { s1 with last_file := s1.last_file - 1 }
    playMp3File res s2.last_file s2
  else s

/-- Arduino `map(val, 0, 5, 0, 60)`: `(val - 0) * (60 - 0) / (5 - 0)`. -/
def map_0_5_0_60 (val : Nat) : Nat := val * 60 / 5

/-- `setTargetVolumeByRange(val)`: the mapped value is stored into the
byte `target_vol` (mod 256) and then `constrain`ed to `0 .. 60`. -/
def setTargetVolumeByRange (val : Nat) : Nat :=
  min (map_0_5_0_60 val % 256) 60

/-- `adjustVolume()`: one fade step toward `target_vol`, followed by the
unconditional `MP3player.setVolume(volume, volume)` call.  The second
component is the list of `setVolume` argument pairs issued during the
call (always exactly one). -/
def adjustVolume (s : State) : State × List (Nat × Nat) :=
  let v :=
    if s.volume < s.target_vol then s.volume + 1
    else if s.target_vol < s.volume then s.volume - 1
    else s.volume
  ({ s with volume := v }, [(v, v)])

/-- The filenames `readFilenames` copies out of a directory listing:
every entry whose first character is not `'_'` (code 95), in order. -/
def eligibleEntries (entries : List CString) : List CString :=
  entries.filter (fun f => f.head? ≠ some '_')

/-- The indices at which `readFilenames` writes `filename[index]`:
`index` starts at 0 and is incremented after every eligible entry, with
no bound against `MAX_NUM_FILES`. -/
def readFilenamesWriteIndices (entries : List CString) : List Nat :=
  List.range (eligibleEntries entries).length

/-- The `filename` array contents after `readFilenames` stores a listing
(faithful when at most `MAX_NUM_FILES` entries are eligible; beyond that
the source writes out of bounds, see `readFilenamesWriteIndices`). -/
def storeFilenames (entries : List CString) : List CString :=
  let e := eligibleEntries entries
  e.take MAX_NUM_FILES ++
    List.replicate (MAX_NUM_FILES - e.length) []

/-- `readFilenames(dirNum)`: stop playback, `memset` the `filename`
array to zero, `chdir` into the chosen directory (its success is the
input `chdirOk`; on failure the array stays cleared), copy the eligible
entries, then reset `last_file` to 0 and attempt `playMp3File(1)` with
result code `res`. -/
def readFilenames (chdirOk : Bool) (entries : List CString) (res : Nat)
    (s : State) : State :=
  let s1 := stopPlayback s
  let s2 := { s1 with filename := List.replicate MAX_NUM_FILES [] }
  let s3 := if chdirOk then { s2 with filename := storeFilenames entries }
            else s2
  let s4 := { s3 with last_file := 0 }
  playMp3File res 1 s4

/-- The DIRECTORY block of `loop()` (lines 252..309), entered on ticks
where the rate-limited voltage-divider check runs.  `buttNum` is the
decoded reading of `SET_DIRECTORY_PIN`; `chdirOk`, `entries` and
`dirRes` feed a possible `readFilenames`, `autoRes` a possible
auto-continue `playNextTrack`.  Returns the new state and this block's
contribution to `detectedInteraction`. -/
def dirSection (buttNum : Nat) (chdirOk : Bool) (entries : List CString)
    (dirRes autoRes : Nat) (s : State) : State × Bool :=
  if buttNum ≠ 0 then
    if buttNum ≠ s.last_dir then
      -- new trigger: record it and raise the interaction flag
      let s1 := { s with last_dir := buttNum }
      if cstrArrayIsNull (s1.dirname.getD (buttNum - 1) []) = true then
        (s1, true)  -- "no directory for that trigger" (dead branch)
      else
        let s2 := if s1.playing then stopPlayback s1 else s1
        (readFilenames chdirOk entries dirRes s2, true)
    else
      -- same trigger still on: auto-continue when nothing is playing
      if s.playing = false then (playNextTrack autoRes s, false)
      else (s, false)
  else
    -- no directory triggered at all
    let p := s.playing
    let s1 := if p then stopPlayback s else s
    ({ s1 with last_dir := 0, last_file := 0 }, p)

/-- The VOLUME block of `loop()` (lines 314..331): a nonzero reading
that differs from `target_vol_range` records the new range, updates the
fade target and raises the interaction flag. -/
def volSection (buttNum : Nat) (s : State) : State × Bool :=
  if buttNum ≠ 0 then
    if buttNum ≠ s.target_vol_range then
      ({ s with target_vol_range := buttNum,
                target_vol := setTargetVolumeByRange buttNum }, true)
    else (s, false)
  else (s, false)

/-- The PREVIOUS-track switch block of `loop()` (lines 344..358), with
`DEBUG = false`.  `prevLow` is `previousTrackSwitchState == LOW`,
`currentPosition` the external `MP3player.currentPosition()`, and `res`
the result code for the dispatched play attempt.  Note the `else`
branch clears `previousTrackSwitchOn` even while the level is still
LOW. -/
def prevSwitchSection (prevLow : Bool) (currentPosition : Nat)
    (res : Nat) (s : State) : State :=
  if 0 < s.last_dir ∧ prevLow = true ∧ s.previousTrackSwitchOn = false then
    let s1 :=
      if 3000 ≤ currentPosition then
        -- play the same song again
        playMp3File res s.last_file (stopPlayback s)
      else
        playPreviousTrack res s
    { s1 with previousTrackSwitchOn := true }
  else
    { s with previousTrackSwitchOn := false }

/-- The NEXT-track switch block of `loop()` (lines 361..368).  Note the
`else` branch clears `nextTrackSwitchOn` even while the level is still
LOW. -/
def nextSwitchSection (nextLow : Bool) (res : Nat) (s : State) : State :=
  if 0 < s.last_dir ∧ nextLow = true ∧ s.nextTrackSwitchOn = false then
    { playNextTrack res s with nextTrackSwitchOn := true }
  else
    { s with nextTrackSwitchOn := false }

/-- External inputs to one iteration of `loop()`. -/
structure TickInput where
  /-- whether `millis() - buttonLastChecked > BUTTONDELAY` held, i.e.
  the rate-limited voltage-divider block ran this iteration -/
  buttonCheck : Bool
  /-- decoded reading of `SET_DIRECTORY_PIN` -/
  dirButt : Nat
  /-- decoded reading of `SET_VOLUME_PIN` -/
  volButt : Nat
  /-- `digitalRead(PREVIOUS_TRACK_SWITCH_PIN) == LOW` -/
  prevLow : Bool
  /-- `digitalRead(NEXT_TRACK_SWITCH_PIN) == LOW` -/
  nextLow : Bool
  /-- success of `sd.chdir` into the triggered directory -/
  chdirOk : Bool
  /-- the triggered directory's listing -/
  entries : List CString
  /-- `MP3player.currentPosition()` -/
  currentPosition : Nat
  /-- `playMP3` result for a `readFilenames` start -/
  dirRes : Nat
  /-- `playMP3` result for the auto-continue `playNextTrack` -/
  autoRes : Nat
  /-- `playMP3` result for a previous-switch dispatch -/
  prevRes : Nat
  /-- `playMP3` result for a next-switch dispatch -/
  nextRes : Nat
deriving Repr, DecidableEq

/-- Result of one `loop()` iteration: the new state, the value of
`detectedInteraction` at the sleep check, and whether the sleep branch
reset `sleepCounter = millis()` without sleeping (line 389). -/
structure TickResult where
  state : State
  detectedInteraction : Bool
  timerReset : Bool
deriving Repr, DecidableEq

/-- One iteration of `loop()` (volume fading aside): voltage-divider
blocks when the rate limit allows, both switch blocks, the
next-switch-level interaction flag (lines 370..372), and the sleep
decision's timer handling.  `timerReset` is the `else` branch at line
389: the timer is reset there exactly when the flag was raised or
`MP3player.isPlaying()` still holds. -/
def loopTick (inp : TickInput) (s : State) : TickResult :=
  let d :=
    if inp.buttonCheck then
      dirSection inp.dirButt inp.chdirOk inp.entries inp.dirRes inp.autoRes s
    else (s, false)
  let v :=
    if inp.buttonCheck then volSection inp.volButt d.1 else (d.1, false)
  let s3 := prevSwitchSection inp.prevLow inp.currentPosition inp.prevRes v.1
  let s4 := nextSwitchSection inp.nextLow inp.nextRes s3
  let detected := d.2 || v.2 || inp.nextLow
  { state := s4
    detectedInteraction := detected
    timerReset := detected || s4.playing }

/-- The sleep rule at lines 377..390: with neither the flag nor active
playback, the device sleeps once `millis() - sleepCounter` reaches
`SLEEP_DELAY`. -/
def sleepsThisTick (elapsed : Nat) (r : TickResult) : Bool :=
  !r.detectedInteraction && !r.state.playing && decide (SLEEP_DELAY ≤ elapsed)

/-- `buttonPushed(pinNum)` after the external `analogRead` (domain
0..1023): the if-else chain of voltage-divider bands.  The C condition
`val >= 0` on the last band is vacuous for the `analogRead` range. -/
def buttonPushed (val : Nat) : Nat :=
  if 751 ≤ val ∧ val ≤ 980 then 1
  else if 580 ≤ val ∧ val ≤ 750 then 2
  else if 380 ≤ val ∧ val ≤ 560 then 3
  else if 241 ≤ val ∧ val ≤ 360 then 4
  else if val ≤ 240 then 5
  else 0

/-- The five declared bands, indexed by position 1..5: closed raw-value
intervals `(lo, hi)`. -/
def band (p : Nat) : Nat × Nat :=
  match p with
  | 1 => (751, 980)
  | 2 => (580, 750)
  | 3 => (380, 560)
  | 4 => (241, 360)
  | 5 => (0, 240)
  | _ => (1024, 1024)

/-- Membership of a raw sample in the band of position `p`. -/
def inBand (p val : Nat) : Bool :=
  decide ((band p).1 ≤ val) && decide (val ≤ (band p).2)

/-- Claim C1 fixture: directory 1 active, its loaded list has exactly
one populated slot, the (last) populated track has just finished
playing. -/
def c1state : State :=
  { last_dir := 1, last_file := 1,
    filename := [['T', '1']] ++ List.replicate 19 ([] : CString),
    playing := false }

/-- Claim C2 fixture: directory 1 active, nothing playing, next-track
switch debouncer idle. -/
def c2state : State := { last_dir := 1 }

/-- Claim C3 fixture: directory 2 was selected and its track 1 is
playing when the selector is released to neutral. -/
def c3state : State :=
  { last_dir := 2, last_file := 1,
    filename := [['T', '1']] ++ List.replicate 19 ([] : CString),
    playing := true }

/-- Claim C4 fixture: a directory listing with 21 eligible entries
(one more than `MAX_NUM_FILES`). -/
def c4entries : List CString := List.replicate 21 ['T']

/-- Claim C4 fixture: track 1 of the loaded list is playing. -/
def c4state : State :=
  { last_dir := 1, last_file := 1, playing := true }

/-- Claim C5 fixture: a loop iteration between voltage-divider checks
(`buttonCheck = false`) in which the previous-track switch is freshly
pressed (level LOW, debounce flag clear) and nothing else happens. -/
def c5inp : TickInput :=
  { buttonCheck := false, dirButt := 0, volButt := 0,
    prevLow := true, nextLow := false, chdirOk := false, entries := [],
    currentPosition := 0, dirRes := 2, autoRes := 2, prevRes := 2,
    nextRes := 2 }

/-- Claim C5 fixture: directory 1 active, no track started yet, nothing
playing. -/
def c5state : State := { last_dir := 1 }

/-- Modelled from the spec's words (claim C5), for comparison with the
code: "an interaction flag was raised this tick (a new directory
trigger, a new volume trigger, or any switch edge — including a
previous-track switch press)". -/
def specC5Interaction (inp : TickInput) (s : State) : Bool :=
  (inp.buttonCheck && decide (inp.dirButt ≠ 0) &&
    decide (inp.dirButt ≠ s.last_dir)) ||
  (inp.buttonCheck && decide (inp.volButt ≠ 0) &&
    decide (inp.volButt ≠ s.target_vol_range)) ||
  (inp.prevLow && !s.previousTrackSwitchOn) ||
  (inp.nextLow && !s.nextTrackSwitchOn)

/-- Claim C6 fixture: a root with a directory registered for position 1
only; a track of directory 1 is currently playing.  Position 2 is not
registered (`dirname[1]` is empty). -/
def c6state : State :=
  { last_dir := 1, last_file := 3,
    dirname := [['1', 'A'], [], [], [], []],
    filename := List.replicate 20 ['X'],
    playing := true }

/-- Claim C7 fixture: track 3 of a fully populated list is current,
nothing playing (its playback just ended). -/
def c7state : State :=
  { last_dir := 1, last_file := 3,
    filename := List.replicate 20 ['Y'],
    playing := false }

/-- Claim C8 fixture: track 1 — the first track, with no earlier slot —
is playing, less than 3000 ms in. -/
def c8state : State :=
  { last_dir := 1, last_file := 1,
    filename := [['T', '1'], ['T', '2']] ++ List.replicate 18 ([] : CString),
    playing := true }

/-- C9: for every raw sample in 0..1023 the decoder returns exactly one
value in {0,..,5}; a sample decodes to position p ∈ 1..5 exactly when it
lies in the band of p, the bands are pairwise disjoint and ordered with
descending raw magnitude as the position grows, and every sample outside
all five bands — including the reserved top range 981..1023 — decodes
to 0. -/
theorem C9_buttonPushed_bands :
    (∀ s : Fin 1024, buttonPushed s.val ≤ 5) ∧
    (∀ s : Fin 1024, ∀ p : Fin 6, 1 ≤ p.val →
      (buttonPushed s.val = p.val ↔ inBand p.val s.val = true)) ∧
    (∀ s : Fin 1024, ∀ p q : Fin 6, 1 ≤ p.val → 1 ≤ q.val →
      inBand p.val s.val = true → inBand q.val s.val = true → p = q) ∧
    (∀ p : Fin 6, 1 ≤ p.val → p.val < 5 →
      (band (p.val + 1)).2 < (band p.val).1) ∧
    (∀ s : Fin 1024, (∀ p : Fin 6, 1 ≤ p.val → inBand p.val s.val = false) →
      buttonPushed s.val = 0) ∧
    (∀ s : Fin 1024, 981 ≤ s.val → buttonPushed s.val = 0) := by
  have hband : ∀ p val : Nat,
      inBand p val = true ↔ (band p).1 ≤ val ∧ val ≤ (band p).2 := by
    intro p val
    simp [inBand, Bool.and_eq_true, decide_eq_true_eq]
  have hchar : ∀ val p : Nat, 1 ≤ p → p ≤ 5 →
      (buttonPushed val = p ↔ (band p).1 ≤ val ∧ val ≤ (band p).2) := by
    intro val p h1 h5
    interval_cases p
    · show buttonPushed val = 1 ↔ 751 ≤ val ∧ val ≤ 980
      simp only [buttonPushed]; split_ifs <;> simp_all <;> omega
    · show buttonPushed val = 2 ↔ 580 ≤ val ∧ val ≤ 750
      simp only [buttonPushed]; split_ifs <;> simp_all <;> omega
    · show buttonPushed val = 3 ↔ 380 ≤ val ∧ val ≤ 560
      simp only [buttonPushed]; split_ifs <;> simp_all <;> omega
    · show buttonPushed val = 4 ↔ 241 ≤ val ∧ val ≤ 360
      simp only [buttonPushed]; split_ifs <;> simp_all <;> omega
    · show buttonPushed val = 5 ↔ 0 ≤ val ∧ val ≤ 240
      simp only [buttonPushed]; split_ifs <;> simp_all <;> omega
  have hle : ∀ val : Nat, buttonPushed val ≤ 5 := by
    intro val
    simp only [buttonPushed]
    split_ifs <;> omega
  refine ⟨fun s => hle s.val, ?_, ?_, by decide, ?_, ?_⟩
  · intro s p hp
    exact (hchar s.val p.val hp (by omega)).trans (hband p.val s.val).symm
  · intro s p q hp hq hbp hbq
    have e1 := (hchar s.val p.val hp (by omega)).2 ((hband p.val s.val).1 hbp)
    have e2 := (hchar s.val q.val hq (by omega)).2 ((hband q.val s.val).1 hbq)
    exact Fin.ext (by omega)
  · intro s h
    have hnot : ∀ p : Nat, 1 ≤ p → (hp6 : p < 6) →
        inBand p s.val = false →
        ¬((band p).1 ≤ s.val ∧ s.val ≤ (band p).2) := by
      intro p hp hp6 hf hc
      have ht := (hband p s.val).2 hc
      rw [hf] at ht
      exact Bool.false_ne_true ht
    have h1 : ¬(751 ≤ s.val ∧ s.val ≤ 980) :=
      hnot 1 (by omega) (by omega) (h 1 (by decide))
    have h2 : ¬(580 ≤ s.val ∧ s.val ≤ 750) :=
      hnot 2 (by omega) (by omega) (h 2 (by decide))
    have h3 : ¬(380 ≤ s.val ∧ s.val ≤ 560) :=
      hnot 3 (by omega) (by omega) (h 3 (by decide))
    have h4 : ¬(241 ≤ s.val ∧ s.val ≤ 360) :=
      hnot 4 (by omega) (by omega) (h 4 (by decide))
    have h5 : ¬(0 ≤ s.val ∧ s.val ≤ 240) :=
      hnot 5 (by omega) (by omega) (h 5 (by decide))
    simp only [buttonPushed]
    split_ifs <;> omega
  · intro s hs
    simp only [buttonPushed]
    split_ifs <;> omega

/-- C10: with `volume` and `target_vol` both in [0,60], one
`adjustVolume` tick keeps `volume` in [0,60], leaves it unchanged when
it equals the target, otherwise moves it by exactly one toward the
target without overshooting, and issues exactly one `setVolume` call
with the (possibly unchanged) current volume. -/
theorem C10_adjustVolume_invariant (s : State)
    (hv : s.volume ≤ 60) (ht : s.target_vol ≤ 60) :
    (adjustVolume s).1.volume ≤ 60 ∧
    (s.volume = s.target_vol → (adjustVolume s).1.volume = s.volume) ∧
    (s.volume < s.target_vol →
      (adjustVolume s).1.volume = s.volume + 1 ∧
      (adjustVolume s).1.volume ≤ s.target_vol) ∧
    (s.target_vol < s.volume →
      (adjustVolume s).1.volume = s.volume - 1 ∧
      s.target_vol ≤ (adjustVolume s).1.volume) ∧
    (adjustVolume s).2 =
      [((adjustVolume s).1.volume, (adjustVolume s).1.volume)] := by
  unfold adjustVolume
  dsimp only
  split_ifs with h1 h2 <;>
    exact ⟨by omega, by omega, by omega, by omega, rfl⟩

/-- Witness for C10 at the initial state (volume 50, target 50). -/
theorem C10_adjustVolume_invariant_witness :
    ({} : State).volume ≤ 60 ∧ (adjustVolume {}).1.volume ≤ 60 :=
  ⟨by decide, (C10_adjustVolume_invariant {} (by decide) (by decide)).1⟩

/-- C1: the claim says that on a qualifying tick (same nonzero selector
reading, nothing playing) the track index advances by exactly one and
never exceeds the number of populated slots, `playNextTrack` being a
no-op on the last populated track.  In the code the populated-slot
guard `filename[last_file] != ""` is the constant-true pointer
comparison, so from the last (and only) populated track the index
advances to 2 anyway — both through `playNextTrack` directly and
through the same-trigger auto-continue path of the directory block. -/
theorem C1_code_bug_eval :
    countPopulated c1state.filename = 1 ∧
    c1state.last_file = 1 ∧ c1state.playing = false ∧
    (playNextTrack 2 c1state).last_file = 2 ∧
    (dirSection 1 false [] 2 2 c1state).1.last_file = 2 := by
  decide

/-- C2: the claim says a digital track switch held LOW over many
consecutive ticks dispatches exactly one track-change action, with only
a release re-arming the debouncer.  In the code the `else` branch
clears `nextTrackSwitchOn` even while the level is still LOW, so a
3-tick hold dispatches twice: the index advances on the first and again
on the third tick, the flag having been cleared on the second. -/
theorem C2_code_bug_eval :
    (nextSwitchSection true 2 c2state).last_file = 1 ∧
    (nextSwitchSection true 2 c2state).nextTrackSwitchOn = true ∧
    (nextSwitchSection true 2 (nextSwitchSection true 2 c2state)).last_file
      = 1 ∧
    (nextSwitchSection true 2
        (nextSwitchSection true 2 c2state)).nextTrackSwitchOn = false ∧
    (nextSwitchSection true 2 (nextSwitchSection true 2
        (nextSwitchSection true 2 c2state))).last_file = 2 := by
  decide

/-- C3 counterexample: the claim says a tick where the selector reads 0
never raises the interaction flag, including the transition from a
nonzero position while playing.  On that very transition (directory 2
playing, selector released to 0) the code raises the flag. -/
theorem C3_counterexample :
    (dirSection 0 false [] 2 2 c3state).2 = true ∧ c3state.playing = true := by
  decide

/-- C3 amended: on a selector-position-0 tick the directory block stops
playback and clears the last selection and track index, and it raises
the interaction flag exactly when playback was active (the stopping
transition); a 0 reading with nothing playing raises no flag. -/
theorem C3_amended (chdirOk : Bool) (entries : List CString)
    (dirRes autoRes : Nat) (s : State) :
    dirSection 0 chdirOk entries dirRes autoRes s =
      ({ s with playing := false, last_dir := 0, last_file := 0 },
       s.playing) := by
  obtain ⟨ld, lf, dn, fn, pl, v, tv, tvr, nx, pv⟩ := s
  cases pl <;> rfl

/-- C4: the claim says every `filename` access stays within
`0 .. MAX_NUM_FILES - 1`.  In the code, `playPreviousTrack`'s guard
passes at `last_file = 1` (the function goes on to decrement, proving
the populated-slot check at signed index `last_file - 2 = -1` was
reached), and `readFilenames` writes at every index in
`0 .. #eligible - 1`, so a 21-entry listing writes at index 20 =
`MAX_NUM_FILES`. -/
theorem C4_code_bug_eval :
    c4state.last_file = 1 ∧
    (playPreviousTrack 2 c4state).last_file = 0 ∧
    prevCheckIndex c4state.last_file = -1 ∧
    ¬ filenameIndexInBounds (prevCheckIndex c4state.last_file) ∧
    readFilenamesWriteIndices c4entries = List.range 21 ∧
    20 ∈ readFilenamesWriteIndices c4entries ∧
    ¬ (20 < MAX_NUM_FILES) := by
  decide

/-- C5 counterexample: the claim says the idle timer is reset iff an
interaction flag was raised this tick (new directory trigger, new
volume trigger, or any switch edge — including a previous-track switch
press) or playback is active.  On a tick whose only event is a fresh
previous-track switch press, the spec-side interaction predicate holds
but the code resets nothing: the previous-track block never touches
`detectedInteraction`. -/
theorem C5_counterexample :
    ¬ ((loopTick c5inp c5state).timerReset = true ↔
        (specC5Interaction c5inp c5state = true ∨
         (loopTick c5inp c5state).state.playing = true)) := by
  decide

theorem dirSection_snd_eq (b : Nat) (c : Bool) (e : List CString)
    (r a : Nat) (s : State) :
    (dirSection b c e r a s).2 =
      ((decide (b ≠ 0) && decide (b ≠ s.last_dir)) ||
       (decide (b = 0) && s.playing)) := by
  by_cases hb : b = 0
  · subst hb
    cases hp : s.playing <;> simp [dirSection, hp]
  · by_cases hl : b = s.last_dir
    · subst hl
      cases hp : s.playing <;> simp [dirSection, hb, hp]
    · simp [dirSection, cstrArrayIsNull, hb, hl]

theorem volSection_snd_eq (b : Nat) (s : State) :
    (volSection b s).2 =
      (decide (b ≠ 0) && decide (b ≠ s.target_vol_range)) := by
  by_cases hb : b = 0
  · simp [volSection, hb]
  · by_cases ht : b = s.target_vol_range <;> simp [volSection, hb, ht]

theorem dirSection_fst_target_vol_range (b : Nat) (c : Bool)
    (e : List CString) (r a : Nat) (s : State) :
    (dirSection b c e r a s).1.target_vol_range = s.target_vol_range := by
  unfold dirSection readFilenames playNextTrack playMp3File stopPlayback
  dsimp only
  split_ifs <;> rfl

/-- C5 amended: the sleep block resets the idle timer exactly when the
code's `detectedInteraction` flag is up or playback is active at the
sleep check, and that flag is raised by precisely these events: a new
nonzero directory trigger, a stop caused by the selector reading 0
while playing, a new nonzero volume trigger (all three only on
rate-limited ticks), or a LOW level on the next-track switch.  A
previous-track switch press raises no flag. -/
theorem C5_amended (inp : TickInput) (s : State) :
    ((loopTick inp s).timerReset = true ↔
      ((loopTick inp s).detectedInteraction = true ∨
       (loopTick inp s).state.playing = true)) ∧
    ((loopTick inp s).detectedInteraction = true ↔
      ((inp.buttonCheck = true ∧ inp.dirButt ≠ 0 ∧
          inp.dirButt ≠ s.last_dir) ∨
       (inp.buttonCheck = true ∧ inp.dirButt = 0 ∧ s.playing = true) ∨
       (inp.buttonCheck = true ∧ inp.volButt ≠ 0 ∧
          inp.volButt ≠ s.target_vol_range) ∨
       inp.nextLow = true)) := by
  constructor
  · simp [loopTick, Bool.or_eq_true]
  · cases hbc : inp.buttonCheck
    · simp [loopTick, hbc]
    · simp [loopTick, hbc, dirSection_snd_eq, volSection_snd_eq,
        dirSection_fst_target_vol_range, Bool.or_eq_true,
        Bool.and_eq_true, decide_eq_true_eq]
      tauto

/-- C6: the claim says a new nonzero selector position with no
registered directory is a silent no-op (playback kept, file list kept,
track index kept).  In the code the emptiness test `!dirname[i]` is a
constant-false pointer test, so the "no directory" branch is dead: with
position 2 unregistered and a directory-1 track playing, the code stops
playback, wipes the stored 20-slot file list and resets the track index
to 0. -/
theorem C6_code_bug_eval :
    slotPopulated (c6state.dirname.getD 1 []) = false ∧
    c6state.playing = true ∧ c6state.last_file = 3 ∧
    countPopulated c6state.filename = 20 ∧
    (dirSection 2 false [] 3 2 c6state).1.playing = false ∧
    (dirSection 2 false [] 3 2 c6state).1.filename =
      List.replicate MAX_NUM_FILES [] ∧
    (dirSection 2 false [] 3 2 c6state).1.last_file = 0 := by
  decide

/-- C7 counterexample: the claim says a failed playback attempt
(busy/error) leaves the track index exactly as before, including when
the attempt comes from `playNextTrack`.  `playNextTrack` increments
`last_file` before calling `playMp3File`, so after a busy result
(code 2) the index has still advanced from 3 to 4. -/
theorem C7_counterexample :
    c7state.last_file = 3 ∧
    (playNextTrack 2 c7state).last_file = 4 := by
  decide

/-- C7 amended: `playMp3File` itself updates `last_file` only on
success and leaves the state untouched on a nonzero result; but
`playNextTrack` and `playPreviousTrack` move the index before the
attempt, so on busy/error the index remains advanced (resp.
decremented) by one. -/
theorem C7_amended (res fileNum : Nat) (s : State) :
    (res ≠ 0 → playMp3File res fileNum s = s) ∧
    (playMp3File 0 fileNum s).last_file = fileNum ∧
    (res ≠ 0 → s.last_file + 1 ≤ MAX_NUM_FILES →
      (playNextTrack res s).last_file = s.last_file + 1) ∧
    (res ≠ 0 → 1 ≤ s.last_file →
      (playPreviousTrack res s).last_file = s.last_file - 1) := by
  refine ⟨fun h => ?_, ?_, fun h hb => ?_, fun h hp => ?_⟩
  · simp [playMp3File, h]
  · simp [playMp3File]
  · simp [playNextTrack, playMp3File, cstrNeqEmptyLiteral, stopPlayback,
      h, hb]
  · simp [playPreviousTrack, playMp3File, cstrNeqEmptyLiteral,
      stopPlayback, h, hp]

/-- Witness for C7 amended: a busy result (code 2) leaves
`playMp3File`'s state untouched, yet the same result leaves
`playNextTrack`'s index advanced and `playPreviousTrack`'s index
decremented. -/
theorem C7_amended_witness :
    (2 : Nat) ≠ 0 ∧ c7state.last_file + 1 ≤ MAX_NUM_FILES ∧
    1 ≤ c7state.last_file ∧
    playMp3File 2 5 ({} : State) = ({} : State) ∧
    (playNextTrack 2 c7state).last_file = c7state.last_file + 1 ∧
    (playPreviousTrack 2 c7state).last_file = c7state.last_file - 1 :=
  ⟨by decide, by decide, by decide, (C7_amended 2 5 {}).1 (by decide),
   (C7_amended 2 5 c7state).2.2.1 (by decide) (by decide),
   (C7_amended 2 5 c7state).2.2.2 (by decide) (by decide)⟩

/-- C8: the claim says a previous-track press with elapsed < 3000 ms
and no earlier populated slot is a no-op.  At `last_file = 1` (the
first track, with no earlier slot) the code's guard
`(last_file - 1) >= 0 && filename[last_file - 2] != ""` still passes
(the second conjunct is the constant-true pointer comparison, read out
of bounds at index -1), so the press decrements the index to 0 and
dispatches a play of `filename[-1]`. -/
theorem C8_code_bug_eval :
    c8state.last_file = 1 ∧
    (playPreviousTrack 2 c8state).last_file = 0 ∧
    (prevSwitchSection true 0 2 c8state).last_file = 0 ∧
    (prevSwitchSection true 0 2 c8state).previousTrackSwitchOn = true := by
  decide

end MP3Mat
